import Mathlib

/-!
Shallow embedding of the response-interpretation pipeline of `app.py`
(Smart ATS Resume Analyzer).  The embedded fragment is the body of
`main` that handles the model response (app.py lines 180-227): JSON
decoding via `json.loads`, the match-score coercion of lines 191-203,
the missing-keyword display of lines 205-214 and the summary display
of line 218, together with the Python primitives this code relies on
(`json.loads`, `dict.get`, `int(...)`, `str.strip`, truthiness,
iteration, `isinstance`).

Modelling conventions:
* Python values appearing in decoded JSON responses are the inductive
  `PyVal`.  Booleans get their own constructor, but, exactly as in
  Python, they are admitted by the `isinstance(x, int)` test of
  app.py line 194 with numeric value `True = 1`, `False = 0`.
* Floats are carried as their JSON source lexeme.  No claim depends
  on float arithmetic; the code only asks whether a float passes
  `isinstance(x, int)` (it never does), whether `int(str(x))`
  succeeds on it (it never does, as `str` of a Python float always
  contains a dot, an exponent marker, or is `nan`/`inf`), and for its
  truthiness (zero mantissa iff falsy), all of which the lexeme
  determines.
* Unicode corner cases with no bearing on any claim (non-ASCII digits
  accepted by Python `int`, surrogate-pair combination in JSON
  escapes) are modelled by their ASCII behaviour.
-/

/-- Python values that can result from `json.loads`, plus `None`.
The `obj` constructor carries the key-value pairs of a `dict` in
insertion order with distinct keys, as `json.loads` produces them. -/
inductive PyVal where
  | none : PyVal
  | bool (b : Bool) : PyVal
  | int (n : Int) : PyVal
  | float (lex : String) : PyVal
  | str (s : String) : PyVal
  | list (xs : List PyVal) : PyVal
  | obj (kvs : List (String × PyVal)) : PyVal

/-- Exception kinds raised by the Python fragment being modelled:
`ValueError` from `int(...)` on a bad literal, `TypeError` from
iterating a non-iterable, `AttributeError` from calling `.get` on a
decoded value that is not a dict. -/
inductive PyError where
  | valueError : PyError
  | typeError : PyError
  | attributeError : PyError
deriving DecidableEq

/-- Decidable equality for `Except` results, needed so concrete
evaluations of the score normalizer can be settled by `decide`. -/
instance instDecEqExcept {ε α : Type} [DecidableEq ε] [DecidableEq α] :
    DecidableEq (Except ε α) := fun x y =>
  match x, y with
  | .error a, .error b =>
    if h : a = b then Decidable.isTrue (by rw [h])
    else Decidable.isFalse (fun hc => h (Except.error.inj hc))
  | .ok a, .ok b =>
    if h : a = b then Decidable.isTrue (by rw [h])
    else Decidable.isFalse (fun hc => h (Except.ok.inj hc))
  | .error _, .ok _ => Decidable.isFalse (fun hc => Except.noConfusion hc)
  | .ok _, .error _ => Decidable.isFalse (fun hc => Except.noConfusion hc)

/-- Lookup in a Python dict modelled as an association list with
distinct keys (first match). -/
def dictLookup : List (String × PyVal) → String → Option PyVal
  | [], _ => none
  | (k, v) :: rest, key => if k = key then some v else dictLookup rest key

/-- Python `dict.get(key, default)`. -/
def dictGet (kvs : List (String × PyVal)) (key : String) (dflt : PyVal) : PyVal :=
  (dictLookup kvs key).getD dflt

/-- Insertion into a Python dict: a repeated key replaces the value in
place (keeping the original position), a new key is appended.  This is
how `json.loads` builds objects, so duplicate keys keep the last
value. -/
def objInsert : List (String × PyVal) → String → PyVal → List (String × PyVal)
  | [], k, v => [(k, v)]
  | (k1, v1) :: rest, k, v =>
    if k1 = k then (k1, v) :: rest else (k1, v1) :: objInsert rest k v

/-- Python `repr` of a value.  String quoting is the simple
single-quote form; no claim depends on `repr` escape details, only on
the facts that container reprs start with a bracket or brace and
scalar reprs are the exact Python ones. -/
def pyRepr (v : PyVal) : String :=
  match v with
  | PyVal.none => "None"
  | PyVal.bool true => "True"
  | PyVal.bool false => "False"
  | PyVal.int n => toString n
  | PyVal.float lex => lex
  | PyVal.str s => "'" ++ s ++ "'"
  | PyVal.list xs =>
    "[" ++ String.intercalate ", " (xs.attach.map fun w => pyRepr w.1) ++ "]"
  | PyVal.obj kvs =>
    "\x7b" ++
      String.intercalate ", "
        (kvs.attach.map fun kv => "'" ++ kv.1.1 ++ "': " ++ pyRepr kv.1.2) ++
      "\x7d"
decreasing_by
  · have h := List.sizeOf_lt_of_mem w.2
    simp only [PyVal.list.sizeOf_spec]
    omega
  · rcases kv with ⟨⟨k1, v1⟩, hm⟩
    have h := List.sizeOf_lt_of_mem hm
    simp only [Prod.mk.sizeOf_spec] at h
    simp only [PyVal.obj.sizeOf_spec]
    omega

/-- Python `str(x)`: the string itself for a string, `repr` otherwise
(for the value kinds occurring here, `str` and `repr` agree on
non-strings). -/
def pyStr (v : PyVal) : String :=
  match v with
  | PyVal.none => "None"
  | PyVal.bool true => "True"
  | PyVal.bool false => "False"
  | PyVal.int n => toString n
  | PyVal.float lex => lex
  | PyVal.str s => s
  | PyVal.list xs => pyRepr (PyVal.list xs)
  | PyVal.obj kvs => pyRepr (PyVal.obj kvs)

/-- Whitespace stripped by Python `int(...)` around a numeric literal
(ASCII part). -/
def isAsciiWs (c : Char) : Bool :=
  c = ' ' || c = '\t' || c = '\n' || c = '\r' || c = '\x0b' || c = '\x0c'

/-- Digit-run accumulator for Python `int(...)`: decimal digits with
single underscores allowed only between digits. -/
def digitsGo : Nat → List Char → Option Nat
  | acc, [] => some acc
  | acc, '_' :: c :: rest =>
    if c.isDigit then digitsGo (acc * 10 + (c.toNat - 48)) rest else none
  | _, ['_'] => none
  | acc, c :: rest =>
    if c.isDigit then digitsGo (acc * 10 + (c.toNat - 48)) rest else none

/-- Python `int(s)` on a string: optional surrounding whitespace,
optional sign, then a digit run (underscore separators allowed,
leading zeros allowed).  Returns `none` where Python raises
`ValueError`. -/
def pyIntOfString? (s : String) : Option Int :=
  let cs1 := s.data.dropWhile isAsciiWs
  let cs := (cs1.reverse.dropWhile isAsciiWs).reverse
  match cs with
  | '+' :: c :: rest =>
    if c.isDigit then (digitsGo (c.toNat - 48) rest).map Int.ofNat else none
  | '-' :: c :: rest =>
    if c.isDigit then (digitsGo (c.toNat - 48) rest).map (fun n => -(Int.ofNat n))
    else none
  | [c] => if c.isDigit then some (Int.ofNat (c.toNat - 48)) else none
  | c :: rest =>
    if c.isDigit then (digitsGo (c.toNat - 48) rest).map Int.ofNat else none
  | [] => none

/-- Python `s.strip(chr)` for the percent sign, as in app.py line 198:
removes all leading and trailing `%` characters (and nothing else). -/
def pyStripPercent (s : String) : String :=
  String.mk (((s.data.dropWhile (fun c => c = '%')).reverse.dropWhile
    (fun c => c = '%')).reverse)

/-- Score coercion of app.py lines 192-203 (the try body and its
`except (ValueError, TypeError)` handler):

    if isinstance(match_percentage_str, int):
        score_value = match_percentage_str
    else:
        score_value = int(str(match_percentage_str).strip('%'))

`isinstance(x, int)` is true for Python bools, whose numeric values
are 1 and 0.  There is no range check of any kind.  In the `else`
branch `int` is applied to a genuine string, so the only possible
exception is `ValueError`. -/
def normalizeScore (v : PyVal) : Except PyError Int :=
  match v with
  | PyVal.int n => Except.ok n
  | PyVal.bool b => Except.ok (if b then 1 else 0)
  | v =>
    match pyIntOfString? (pyStripPercent (pyStr v)) with
    | some n => Except.ok n
    | none => Except.error PyError.valueError

/-- Whether a float lexeme denotes zero (the only falsy float). -/
def floatLexZero (lex : String) : Bool :=
  if lex == "NaN" || lex == "Infinity" || lex == "-Infinity" then false
  else
    let cs := match lex.data with
      | '-' :: r => r
      | cs => cs
    let mant := cs.takeWhile (fun c => !(c == 'e' || c == 'E'))
    mant.all (fun c => c == '0' || c == '.')

/-- Python truthiness of a value, as used by `if missing_keywords:` on
app.py line 208. -/
def pyTruthy : PyVal → Bool
  | PyVal.none => false
  | PyVal.bool b => b
  | PyVal.int n => n != 0
  | PyVal.float lex => !(floatLexZero lex)
  | PyVal.str s => !s.isEmpty
  | PyVal.list xs => !xs.isEmpty
  | PyVal.obj kvs => !kvs.isEmpty

/-- Python iteration over a value, as used by `for keyword in
missing_keywords` on app.py line 211: a string yields its characters
as one-character strings, a list its elements, a dict its keys;
`None`, bools, ints and floats are not iterable (`TypeError`). -/
def pyIter? : PyVal → Option (List PyVal)
  | PyVal.str s => some (s.data.map (fun c => PyVal.str (String.mk [c])))
  | PyVal.list xs => some xs
  | PyVal.obj kvs => some (kvs.map (fun kv => PyVal.str kv.1))
  | _ => none

/-- Outcome of the keyword tab (app.py lines 207-214): either the
success message of line 214 (falsy value, nothing listed) or the
bullet list of line 212, one rendered `str(keyword)` per iterated
element. -/
inductive KeywordsOutcome where
  | noneFound : KeywordsOutcome
  | listed (items : List String) : KeywordsOutcome

/-- Keyword handling of app.py lines 207-214 applied to the value of
the `MissingKeywords` field: truthy iterables are iterated and each
element displayed via the f-string of line 212; truthy non-iterables
raise `TypeError` (uncaught there, so it aborts the surrounding
`try`); falsy values take the `else` branch. -/
def extractKeywords (v : PyVal) : Except PyError KeywordsOutcome :=
  if pyTruthy v then
    match pyIter? v with
    | some elems => Except.ok (KeywordsOutcome.listed (elems.map pyStr))
    | none => Except.error PyError.typeError
  else Except.ok KeywordsOutcome.noneFound

/-- JSON whitespace accepted between tokens by `json.loads`. -/
def jsonWs (c : Char) : Bool :=
  c = ' ' || c = '\t' || c = '\n' || c = '\r'

/-- Skip JSON whitespace. -/
def skipWs (cs : List Char) : List Char :=
  cs.dropWhile jsonWs

/-- Hexadecimal digit value, for JSON `\u` escapes. -/
def hexVal? (c : Char) : Option Nat :=
  if '0' ≤ c ∧ c ≤ '9' then some (c.toNat - 48)
  else if 'a' ≤ c ∧ c ≤ 'f' then some (c.toNat - 87)
  else if 'A' ≤ c ∧ c ≤ 'F' then some (c.toNat - 55)
  else none

/-- Single-character JSON string escapes. -/
def escChar? (c : Char) : Option Char :=
  if c = '"' then some '"'
  else if c = '\\' then some '\\'
  else if c = '/' then some '/'
  else if c = 'b' then some (Char.ofNat 8)
  else if c = 'f' then some (Char.ofNat 12)
  else if c = 'n' then some '\n'
  else if c = 'r' then some '\r'
  else if c = 't' then some '\t'
  else none

/-- JSON string body scanner (the opening quote already consumed), in
strict mode as `json.loads` defaults: raw control characters are
rejected, the listed escapes and `\uXXXX` are accepted. -/
def parseJStr : List Char → List Char → Option (String × List Char)
  | [], _ => none
  | '"' :: rest, acc => some (String.mk acc.reverse, rest)
  | '\\' :: 'u' :: h1 :: h2 :: h3 :: h4 :: rest, acc =>
    match hexVal? h1, hexVal? h2, hexVal? h3, hexVal? h4 with
    | some a, some b, some c, some d =>
      parseJStr rest (Char.ofNat (((a * 16 + b) * 16 + c) * 16 + d) :: acc)
    | _, _, _, _ => none
  | '\\' :: e :: rest, acc =>
    match escChar? e with
    | some c => parseJStr rest (c :: acc)
    | none => none
  | c :: rest, acc =>
    if c.toNat < 32 then none else parseJStr rest (c :: acc)

/-- Decimal digit run to a natural number. -/
def digitsToNat (ds : List Char) : Nat :=
  ds.foldl (fun a c => a * 10 + (c.toNat - 48)) 0

/-- JSON number token: `-? (0 | [1-9][0-9]*) frac? exp?`.  A number
without fraction and exponent decodes to a Python `int`; otherwise to
a float, carried as its lexeme. -/
def parseNumber (cs : List Char) : Option (PyVal × List Char) :=
  let neg := match cs with
    | '-' :: _ => true
    | _ => false
  let cs1 := if neg then cs.tail else cs
  let ip := cs1.takeWhile Char.isDigit
  let r1 := cs1.dropWhile Char.isDigit
  if ip.isEmpty then none
  else if 1 < ip.length ∧ ip.head? = some '0' then none
  else
    let fracPart : Option (List Char × List Char) :=
      match r1 with
      | '.' :: r =>
        let fd := r.takeWhile Char.isDigit
        if fd.isEmpty then none else some ('.' :: fd, r.dropWhile Char.isDigit)
      | _ => some ([], r1)
    match fracPart with
    | none => none
    | some (fracCs, r2) =>
      let expPart : Option (List Char × List Char) :=
        match r2 with
        | c :: r =>
          if c = 'e' ∨ c = 'E' then
            let signCs := match r with
              | s :: _ => if s = '+' ∨ s = '-' then [s] else []
              | [] => []
            let r3 := r.drop signCs.length
            let ed := r3.takeWhile Char.isDigit
            if ed.isEmpty then none
            else some (c :: (signCs ++ ed), r3.dropWhile Char.isDigit)
          else some ([], r2)
        | [] => some ([], r2)
      match expPart with
      | none => none
      | some (expCs, r4) =>
        if fracCs.isEmpty ∧ expCs.isEmpty then
          let v : Int := Int.ofNat (digitsToNat ip)
          some (PyVal.int (if neg then -v else v), r4)
        else
          let lex := String.mk ((if neg then ['-'] else []) ++ ip ++ fracCs ++ expCs)
          some (PyVal.float lex, r4)

/-- Parser modes for the single fueled JSON scanner: a value, the
member loop of an object (with accumulated pairs), or the element
loop of an array (with accumulated elements, reversed). -/
inductive ParseMode where
  | val : ParseMode
  | objm (acc : List (String × PyVal)) : ParseMode
  | arrm (acc : List PyVal) : ParseMode

/-- Recursive-descent JSON reader, structurally recursive on fuel so
that concrete runs reduce definitionally.  It accepts exactly the
default `json.loads` language: objects, arrays, strings, numbers,
`true`/`false`/`null` and the non-finite float names. -/
def parseCore : Nat → ParseMode → List Char → Option (PyVal × List Char)
  | 0, _, _ => none
  | f + 1, ParseMode.val, cs =>
    match skipWs cs with
    | '{' :: rest => parseCore f (ParseMode.objm []) (skipWs rest)
    | '[' :: rest => parseCore f (ParseMode.arrm []) (skipWs rest)
    | '"' :: rest =>
      match parseJStr rest [] with
      | some (s, r) => some (PyVal.str s, r)
      | none => none
    | 't' :: 'r' :: 'u' :: 'e' :: rest => some (PyVal.bool true, rest)
    | 'f' :: 'a' :: 'l' :: 's' :: 'e' :: rest => some (PyVal.bool false, rest)
    | 'n' :: 'u' :: 'l' :: 'l' :: rest => some (PyVal.none, rest)
    | 'N' :: 'a' :: 'N' :: rest => some (PyVal.float "NaN", rest)
    | 'I' :: 'n' :: 'f' :: 'i' :: 'n' :: 'i' :: 't' :: 'y' :: rest =>
      some (PyVal.float "Infinity", rest)
    | '-' :: 'I' :: 'n' :: 'f' :: 'i' :: 'n' :: 'i' :: 't' :: 'y' :: rest =>
      some (PyVal.float "-Infinity", rest)
    | rest => parseNumber rest
  | f + 1, ParseMode.objm acc, cs =>
    match cs with
    | '}' :: rest => if acc.isEmpty then some (PyVal.obj [], rest) else none
    | '"' :: rest =>
      match parseJStr rest [] with
      | none => none
      | some (k, r1) =>
        match skipWs r1 with
        | ':' :: r2 =>
          match parseCore f ParseMode.val r2 with
          | none => none
          | some (v, r3) =>
            match skipWs r3 with
            | ',' :: r4 => parseCore f (ParseMode.objm (objInsert acc k v)) (skipWs r4)
            | '}' :: r4 => some (PyVal.obj (objInsert acc k v), r4)
            | _ => none
        | _ => none
    | _ => none
  | f + 1, ParseMode.arrm acc, cs =>
    match cs with
    | ']' :: rest => if acc.isEmpty then some (PyVal.list [], rest) else none
    | _ =>
      match parseCore f ParseMode.val cs with
      | none => none
      | some (v, r1) =>
        match skipWs r1 with
        | ',' :: r2 => parseCore f (ParseMode.arrm (v :: acc)) (skipWs r2)
        | ']' :: r2 => some (PyVal.list (v :: acc).reverse, r2)
        | _ => none

/-- Python `json.loads` (app.py line 180): decode one JSON value with
nothing but whitespace around it; `none` models `json.JSONDecodeError`.
The fuel bounds the recursion depth of the scanner, which consumes at
least one input character per two recursive steps, so twice the input
length is always enough. -/
def json_loads (s : String) : Option PyVal :=
  match parseCore (2 * s.length + 16) ParseMode.val s.data with
  | some (v, rest) => if (skipWs rest).isEmpty then some v else none
  | none => none

/-- Outcome of the score tab (app.py lines 190-203): the donut chart
drawn with the coerced score, or the could-not-parse error path of
lines 202-203, which retains and prints the raw field value. -/
inductive ScoreOutcome where
  | chart (score : Int) : ScoreOutcome
  | couldNotParse (raw : PyVal) : ScoreOutcome

/-- Everything the three result tabs render for one decoded response
object (app.py lines 184-218). -/
structure AnalysisDisplay where
  scoreOutcome : ScoreOutcome
  keywordsOutcome : KeywordsOutcome
  summary : PyVal

/-- Raw value of the match field with its default, app.py line 191:
`response_json.get("JD Match", "0%")`. -/
def scoreRaw (kvs : List (String × PyVal)) : PyVal :=
  dictGet kvs "JD Match" (PyVal.str "0%")

/-- Score-tab outcome for a decoded object: the local
`except (ValueError, TypeError)` of app.py line 201 turns any
coercion failure into the degraded display, so this step never throws
out of the tab. -/
def scoreOutcomeOf (kvs : List (String × PyVal)) : ScoreOutcome :=
  match normalizeScore (scoreRaw kvs) with
  | Except.ok n => ScoreOutcome.chart n
  | Except.error _ => ScoreOutcome.couldNotParse (scoreRaw kvs)

/-- Raw value of the keyword field with its default, app.py line 207:
`response_json.get("MissingKeywords", [])`. -/
def kwRaw (kvs : List (String × PyVal)) : PyVal :=
  dictGet kvs "MissingKeywords" (PyVal.list [])

/-- Summary value with its default, app.py line 218:
`response_json.get("Profile Summary", "No summary available")`.  The
value is passed to `st.info` as-is; only an absent key is defaulted. -/
def summaryVal (kvs : List (String × PyVal)) : PyVal :=
  dictGet kvs "Profile Summary" (PyVal.str "No summary available")

/-- Sequential rendering of the three tabs for a decoded object
(app.py lines 184-218).  The score tab cannot throw (its failures are
caught locally); an uncaught `TypeError` from the keyword tab aborts
the rest, so the summary of tab 3 is only reached when tab 2
finishes. -/
def renderTabs (kvs : List (String × PyVal)) : Except PyError AnalysisDisplay :=
  match extractKeywords (kwRaw kvs) with
  | Except.error e => Except.error e
  | Except.ok k => Except.ok ⟨scoreOutcomeOf kvs, k, summaryVal kvs⟩

/-- Outcome of one analyze run as the user sees it: the rendered
result card, the fixed decode-failure message of app.py lines 222-223
(which includes nothing from the response), or the generic handler of
lines 224-225 for any other uncaught exception. -/
inductive MainOutcome where
  | rendered (d : AnalysisDisplay) : MainOutcome
  | decodeError : MainOutcome
  | otherError (e : PyError) : MainOutcome

/-- Response handling of app.py lines 180-227 for one raw response
string: decode, then render the tabs; `json.JSONDecodeError` hits the
dedicated handler of line 222, any other exception (including the
`AttributeError` from `.get` when the decoded value is not a dict)
hits the generic handler of line 224. -/
def mainParse (response : String) : MainOutcome :=
  match json_loads response with
  | none => MainOutcome.decodeError
  | some (PyVal.obj kvs) =>
    match renderTabs kvs with
    | Except.ok d => MainOutcome.rendered d
    | Except.error e => MainOutcome.otherError e
  | some _ => MainOutcome.otherError PyError.attributeError

/-- One analyze run with the only piece of mutable state the handler
touches, `st.session_state.processing`, threaded explicitly: line 174
sets it to `True`, the `finally` of lines 226-227 resets it to
`False`, and nothing in between reads it, so the outcome ignores the
incoming flag and the final flag is always `False`. -/
def mainFlow (_processing : Bool) (response : String) : MainOutcome × Bool :=
  (mainParse response, false)

/-- Keyword strings shown to the user by an `AnalysisDisplay`: none
for the success message, the listed items otherwise. -/
def keywordsDisplayed (d : AnalysisDisplay) : List String :=
  match d.keywordsOutcome with
  | KeywordsOutcome.noneFound => []
  | KeywordsOutcome.listed items => items


/-- Rendering a backend-provided keyword string through the f-string
of app.py line 212 is the identity on strings. -/
theorem map_pyStr_str (xs : List String) : (xs.map PyVal.str).map pyStr = xs := by
  induction xs with
  | nil => rfl
  | cons a t ih => simp [pyStr, ih]

/-- Claim C1, counterexample: the code accepts out-of-range integer
match scores as-is; score normalization of 150 and of -5 succeeds
with that very value instead of failing with a score-parse error. -/
theorem claim_C1_counterexample :
    normalizeScore (PyVal.int 150) = Except.ok 150
    ∧ normalizeScore (PyVal.int (-5)) = Except.ok (-5) := ⟨rfl, rfl⟩

/-- Claim C1 as amended: integer match-score values are accepted
unchanged by the score coercion of app.py lines 194-195, with no
range validation at all — out-of-range integers are neither rejected
nor clamped. -/
theorem claim_C1_amended : ∀ n : Int, normalizeScore (PyVal.int n) = Except.ok n :=
  fun _ => rfl

/-- Claim C2, counterexample: for the decodable JSON object response
whose missing-keywords field holds the number 5 (not a sequence of
strings), the field is not replaced by the empty sequence; iterating
it raises an uncaught TypeError, which aborts the result rendering. -/
theorem claim_C2_counterexample :
    mainParse "\x7b\"MissingKeywords\": 5\x7d" =
      MainOutcome.otherError PyError.typeError := rfl

/-- Claim C2 as amended: only an absent missing-keywords key defaults
to the empty sequence; a present value is used as-is — a truthy list
is iterated with every entry kept verbatim (non-conforming entries
are rendered, not dropped), and a truthy non-iterable value such as a
nonzero number raises a TypeError that aborts rendering of the
remaining fields. -/
theorem claim_C2_amended :
    (∀ kvs : List (String × PyVal), dictLookup kvs "MissingKeywords" = none →
      extractKeywords (kwRaw kvs) = Except.ok KeywordsOutcome.noneFound)
    ∧ (∀ n : Int, n ≠ 0 →
      extractKeywords (PyVal.int n) = Except.error PyError.typeError)
    ∧ (∀ vs : List PyVal, vs ≠ [] →
      extractKeywords (PyVal.list vs) =
        Except.ok (KeywordsOutcome.listed (vs.map pyStr))) := by
  refine ⟨?_, ?_, ?_⟩
  · intro kvs h
    simp [kwRaw, dictGet, h, extractKeywords, pyTruthy]
  · intro n hn
    have ht : pyTruthy (PyVal.int n) = true := by simp [pyTruthy, hn]
    simp [extractKeywords, ht, pyIter?]
  · intro vs hvs
    cases vs with
    | nil => exact absurd rfl hvs
    | cons a t => simp [extractKeywords, pyTruthy, pyIter?]

/-- Witness for the amended claim C2: the empty object (absent key
defaults to no keywords), the value 5 (truthy non-iterable raises)
and a singleton list holding the number 1 (entry kept and rendered). -/
theorem claim_C2_amended_witness :
    extractKeywords (kwRaw []) = Except.ok KeywordsOutcome.noneFound
    ∧ extractKeywords (PyVal.int 5) = Except.error PyError.typeError
    ∧ extractKeywords (PyVal.list [PyVal.int 1]) =
        Except.ok (KeywordsOutcome.listed ([PyVal.int 1].map pyStr)) :=
  ⟨claim_C2_amended.1 [] rfl,
   claim_C2_amended.2.1 5 (by decide),
   claim_C2_amended.2.2 [PyVal.int 1] (List.cons_ne_nil _ _)⟩

/-- Claim C3, counterexample: two different non-decodable raw
responses yield one and the same outcome, a bare decode-error marker;
the handler of app.py lines 222-223 shows only a fixed message, so
the raw response is not surfaced for diagnosis. -/
theorem claim_C3_counterexample :
    mainParse "not json at all" = mainParse "@@@@"
    ∧ mainParse "not json at all" = MainOutcome.decodeError
    ∧ "not json at all" ≠ "@@@@" := ⟨rfl, rfl, by decide⟩

/-- Claim C3 as amended: every raw response that `json.loads` cannot
decode ends terminally in the decode-error outcome — no partial
result is produced — but only a generic fixed message is shown, not
the raw response. -/
theorem claim_C3_amended : ∀ s : String,
    json_loads s = none → mainParse s = MainOutcome.decodeError := by
  intro s h
  simp [mainParse, h]

/-- Witness for the amended claim C3 at a concrete non-JSON string. -/
theorem claim_C3_witness : mainParse "not json at all" = MainOutcome.decodeError :=
  claim_C3_amended "not json at all" rfl

/-- Claim C4, counterexample: in the decodable response where the
match-score field (null) fails normalization and the missing-keywords
field is the non-iterable number 7, the run aborts with a TypeError,
so the profile-summary field is not produced, contrary to the claim
as stated. -/
theorem claim_C4_counterexample :
    mainParse "\x7b\"JD Match\": null, \"MissingKeywords\": 7\x7d" =
      MainOutcome.otherError PyError.typeError
    ∧ normalizeScore PyVal.none = Except.error PyError.valueError := ⟨rfl, rfl⟩

/-- Claim C4 as amended: a score-normalization failure itself never
aborts processing — whenever the keyword step completes on its own
field, the result is fully produced, with the score degraded to the
explicit could-not-parse state retaining the original raw value, and
the keywords and summary exactly as computed from their own fields. -/
theorem claim_C4_amended : ∀ (kvs : List (String × PyVal)) (e : PyError)
    (k : KeywordsOutcome),
    normalizeScore (scoreRaw kvs) = Except.error e →
    extractKeywords (kwRaw kvs) = Except.ok k →
    renderTabs kvs =
      Except.ok ⟨ScoreOutcome.couldNotParse (scoreRaw kvs), k, summaryVal kvs⟩ := by
  intro kvs e k h1 h2
  simp [renderTabs, h2, scoreOutcomeOf, h1]

/-- Witness for the amended claim C4 at the object whose match field
is the unparsable string "bad". -/
theorem claim_C4_witness :
    renderTabs [("JD Match", PyVal.str "bad")] =
      Except.ok ⟨ScoreOutcome.couldNotParse (scoreRaw [("JD Match", PyVal.str "bad")]),
        KeywordsOutcome.noneFound, summaryVal [("JD Match", PyVal.str "bad")]⟩ :=
  claim_C4_amended [("JD Match", PyVal.str "bad")] PyError.valueError
    KeywordsOutcome.noneFound rfl rfl

/-- Claim C5: a match-score string consisting of an integer in 0..100
followed by a percent sign normalizes to that integer (the percent
sign is stripped before parsing), and any string whose stripped form
is not a valid integer literal fails with the score-parse error. -/
theorem claim_C5 :
    (∀ n : Nat, n ≤ 100 →
      normalizeScore (PyVal.str (toString n ++ "%")) = Except.ok (Int.ofNat n))
    ∧ (∀ s : String, pyIntOfString? (pyStripPercent s) = none →
      normalizeScore (PyVal.str s) = Except.error PyError.valueError) := by
  constructor
  · decide
  · intro s h
    simp [normalizeScore, pyStr, h]

/-- Witness for claim C5 at the string "87%" and at the unparsable
string "abc". -/
theorem claim_C5_witness :
    normalizeScore (PyVal.str (toString 87 ++ "%")) = Except.ok (Int.ofNat 87)
    ∧ normalizeScore (PyVal.str "abc") = Except.error PyError.valueError :=
  ⟨claim_C5.1 87 (by decide), claim_C5.2 "abc" rfl⟩

/-- Claim C6: every integer between 0 and 100 is returned unchanged
by score normalization. -/
theorem claim_C6 : ∀ n : Int, 0 ≤ n → n ≤ 100 →
    normalizeScore (PyVal.int n) = Except.ok n :=
  fun _ _ _ => rfl

/-- Witness for claim C6 at the integer 42. -/
theorem claim_C6_witness : normalizeScore (PyVal.int 42) = Except.ok 42 :=
  claim_C6 42 (by decide) (by decide)

/-- Claim C7: parsing the empty JSON object yields the fully
populated result whose score is 0 (from the "0%" default of app.py
line 191), whose keyword display is the empty one (nothing listed)
and whose summary is the fixed fallback string of line 218. -/
theorem claim_C7 :
    mainParse "\x7b\x7d" =
      MainOutcome.rendered ⟨ScoreOutcome.chart 0, KeywordsOutcome.noneFound,
        PyVal.str "No summary available"⟩ := rfl

/-- Claim C8: whenever the missing-keywords field of a decoded
response is a list of strings, the rendered result lists exactly that
sequence in its original order — no deduplication, sorting or
filtering of any element. -/
theorem claim_C8 : ∀ (kvs : List (String × PyVal)) (xs : List String),
    kwRaw kvs = PyVal.list (xs.map PyVal.str) →
    ∃ d, renderTabs kvs = Except.ok d ∧ keywordsDisplayed d = xs := by
  intro kvs xs h
  cases xs with
  | nil =>
    refine ⟨⟨scoreOutcomeOf kvs, KeywordsOutcome.noneFound, summaryVal kvs⟩, ?_, rfl⟩
    simp [renderTabs, h, extractKeywords, pyTruthy]
  | cons a t =>
    refine ⟨⟨scoreOutcomeOf kvs, KeywordsOutcome.listed (a :: t), summaryVal kvs⟩, ?_, rfl⟩
    simp [renderTabs, h, extractKeywords, pyTruthy, pyIter?]
    exact ⟨rfl, by rw [← List.map_map]; exact map_pyStr_str t⟩

/-- Witness for claim C8 at a response carrying the keyword list
Docker, Kubernetes. -/
theorem claim_C8_witness :
    ∃ d, renderTabs [("MissingKeywords",
        PyVal.list [PyVal.str "Docker", PyVal.str "Kubernetes"])] = Except.ok d
      ∧ keywordsDisplayed d = ["Docker", "Kubernetes"] :=
  claim_C8 [("MissingKeywords", PyVal.list [PyVal.str "Docker", PyVal.str "Kubernetes"])]
    ["Docker", "Kubernetes"] rfl

/-- Claim C9: parsing the same raw response twice yields identical
results, and the processing flag — the only mutable state the handler
touches — is back to False after a run, so no hidden state can
influence a second parse of the same string. -/
theorem claim_C9 : ∀ (response : String) (b : Bool),
    (mainFlow b response).1 = (mainFlow (mainFlow b response).2 response).1
    ∧ (mainFlow (mainFlow b response).2 response).2 = false :=
  fun _ _ => ⟨rfl, rfl⟩

/-- Claim C10: a Boolean match-score value passes the
`isinstance(x, int)` test of app.py line 194 and is accepted through
the integer branch: True yields score 1 and False yields score 0. -/
theorem claim_C10 :
    normalizeScore (PyVal.bool true) = Except.ok 1
    ∧ normalizeScore (PyVal.bool false) = Except.ok 0 := ⟨rfl, rfl⟩
